import Mathlib

/-!
Verification of the tool/resource invocation layer of `src/odoo_mcp/server.py`
(mcp-odoo). The Odoo RPC client (`odoo_client.py`) is not part of the core
under specification; it is the external collaborator of spec §6, modelled here
as an abstract behaviour `OdooClient` whose every method either returns a
value or raises a Python exception (`PyErr`). Each handler body is embedded
as a computation in a monad `M` that threads the list of outbound collaborator
calls (the trace), so that claims about "how many remote calls happen" and
"which options are forwarded" are provable. Python dict/JSON values are
embedded as the inductive `Value`; a Python dict is an insertion-ordered
association list, exactly as CPython preserves insertion order.
-/

namespace OdooMCP

/-- Embedded Python/JSON value (argument and result values of the handlers). -/
inductive Value where
  | null : Value
  | bool : Bool → Value
  | int : Int → Value
  | str : String → Value
  | list : List Value → Value
  | dict : List (String × Value) → Value
deriving Repr

/-- A raised Python exception, distinguishing `ValueError` (which the `read`
tool catches by a dedicated clause) from every other exception type. -/
inductive PyErr where
  | valueError : String → PyErr
  | other : String → PyErr
deriving Repr

/-- Python `str(e)` on an exception: its message. -/
def PyErr.msg : PyErr → String
  | .valueError m => m
  | .other m => m

/-- The uniform result envelope: `{"success": True, "result": v}` or
`{"success": False, "error": m}`. Exactly one variant, by construction. -/
inductive Envelope where
  | success : Value → Envelope
  | failure : String → Envelope
deriving Repr

/-- One outbound call to the external collaborator, with its arguments. -/
inductive Call where
  | get_models : Call
  | get_model_info : String → Call
  | get_model_fields : String → Call
  | read_records : String → List Int → Option (List String) → Call
  | search_count : String → List Value → Call
  | search_read : String → String → Call
  | execute_method : String → String → List Value → List (String × Value) → Call
deriving Repr

abbrev Trace := List Call

/-- Behaviour of the external collaborator (`OdooClient`, spec §6): every
method either returns a value or raises. `execute_method` is the generic
dispatch used by the `search_read` and `read_group` tools; `search_read`
(taking the raw domain string) is the client method used by the search
resource. -/
structure OdooClient where
  get_models : Except PyErr Value
  get_model_info : String → Except PyErr (List (String × Value))
  get_model_fields : String → Except PyErr Value
  read_records : String → List Int → Option (List String) → Except PyErr (List Value)
  search_count : String → List Value → Except PyErr Value
  search_read : String → String → Except PyErr Value
  execute_method : String → String → List Value → List (String × Value) → Except PyErr Value

/-- A handler-body computation: threads the trace of outbound collaborator
calls and may terminate with a raised exception. -/
def M (α : Type) : Type := Trace → Except PyErr α × Trace

/-- Return a value, no call made. -/
def M.pure {α : Type} (a : α) : M α := fun tr => (Except.ok a, tr)

/-- Sequencing: a raised exception aborts the rest of the body. -/
def M.bind {α β : Type} (x : M α) (f : α → M β) : M β := fun tr =>
  match x tr with
  | (Except.ok a, tr2) => f a tr2
  | (Except.error e, tr2) => (Except.error e, tr2)

/-- Perform one outbound collaborator call: records the call in the trace and
yields the collaborator's behaviour (value or raised exception). -/
def M.call {α : Type} (c : Call) (r : Except PyErr α) : M α := fun tr => (r, tr ++ [c])

/-- Lift a purely local fallible step (e.g. `int(record_id)`); no call made. -/
def M.lift {α : Type} (r : Except PyErr α) : M α := fun tr => (r, tr)

/-- The façade wrapper shared by every tool: run the `try:` body from an empty
trace; a returned dict passes through, a raised exception is caught by the
`except Exception as e:` clause and becomes `{"success": False, "error": str(e)}`. -/
def runTool (body : M Envelope) : Envelope × Trace :=
  match body [] with
  | (Except.ok env, tr) => (env, tr)
  | (Except.error e, tr) => (Envelope.failure e.msg, tr)

/-- Python dict assignment `d[k] = v`: overwrite in place when the key exists,
append otherwise (CPython preserves insertion order). -/
def dictSet (d : List (String × Value)) (k : String) (v : Value) : List (String × Value) :=
  if d.any (fun p => p.1 == k) then
    d.map (fun p => if p.1 == k then (k, v) else p)
  else
    d ++ [(k, v)]

/-- The `record_id: Union[str, int]` argument of the `read` tool. -/
inductive StrOrInt where
  | s : String → StrOrInt
  | i : Int → StrOrInt
deriving Repr

/-- Python f-string interpolation `{record_id}` of the original argument. -/
def StrOrInt.toStr : StrOrInt → String
  | .s v => v
  | .i n => toString n

/-- Accumulate the decimal digits of a Python int literal; any non-digit
character rejects the literal. -/
def parseNatAux : List Char → Nat → Option Nat
  | [], acc => some acc
  | c :: cs, acc =>
      if c.isDigit then parseNatAux cs (acc * 10 + (c.toNat - 48)) else none

/-- Python `int(s)` parsing on a string: surrounding whitespace is stripped,
then an optionally signed non-empty run of decimal digits is accepted;
anything else is rejected. -/
def pyIntParse (s : String) : Option Int :=
  let cs := ((s.data.dropWhile Char.isWhitespace).reverse.dropWhile Char.isWhitespace).reverse
  match cs with
  | [] => none
  | '-' :: rest =>
      match rest with
      | [] => none
      | _ => (parseNatAux rest 0).map (fun n => -(n : Int))
  | '+' :: rest =>
      match rest with
      | [] => none
      | _ => (parseNatAux rest 0).map (fun n => (n : Int))
  | _ => (parseNatAux cs 0).map (fun n => (n : Int))

/-- Python `int(s)` on a string: parse, raising `ValueError` otherwise. -/
def pyIntOfStr (s : String) : Except PyErr Int :=
  match pyIntParse s with
  | some n => Except.ok n
  | none =>
      Except.error (PyErr.valueError
        ("invalid literal for int() with base 10: '" ++ s ++ "'"))

/-- Python `int(record_id)` on the `Union[str, int]` argument. -/
def pyInt : StrOrInt → Except PyErr Int
  | .s v => pyIntOfStr v
  | .i n => Except.ok n

/- ----- MCP Tools (server.py lines 197-435) ----- -/

/-- Body of the `list_models` tool's `try:` block. -/
def list_models_try (b : OdooClient) : M Envelope :=
  M.bind (M.call Call.get_models b.get_models) (fun models =>
  M.pure (Envelope.success models))

/-- Tool `list_models`. -/
def list_models (b : OdooClient) : Envelope × Trace :=
  runTool (list_models_try b)

/-- Body of the `model_info` tool's `try:` block: two collaborator calls, then
`model_info["fields"] = fields` and a success envelope. -/
def model_info_try (b : OdooClient) (model_name : String) : M Envelope :=
  M.bind (M.call (Call.get_model_info model_name) (b.get_model_info model_name)) (fun mi =>
  M.bind (M.call (Call.get_model_fields model_name) (b.get_model_fields model_name)) (fun fields =>
  M.pure (Envelope.success (Value.dict (dictSet mi "fields" fields)))))

/-- Tool `model_info`. -/
def model_info (b : OdooClient) (model_name : String) : Envelope × Trace :=
  runTool (model_info_try b model_name)

/-- Body of the `read` tool's `try:` block: `int(record_id)`, one
`read_records` call, then the not-found check `if not record`. -/
def read_try (b : OdooClient) (model_name : String) (record_id : StrOrInt)
    (fields : Option (List String)) : M Envelope :=
  M.bind (M.lift (pyInt record_id)) (fun record_id_int =>
  M.bind (M.call (Call.read_records model_name [record_id_int] fields)
                 (b.read_records model_name [record_id_int] fields)) (fun record =>
  if record.isEmpty then
    M.pure (Envelope.failure
      ("Record " ++ toString record_id_int ++ " not found in model " ++ model_name ++ "."))
  else
    M.pure (Envelope.success (Value.list record))))

/-- Tool `read` (get_record): unlike the other tools it has a dedicated
`except ValueError:` clause before the generic `except Exception as e:`; any
`ValueError` raised inside the `try:` block — including one raised by the
collaborator — is reported as the local invalid-record-ID message. -/
def read (b : OdooClient) (model_name : String) (record_id : StrOrInt)
    (fields : Option (List String)) : Envelope × Trace :=
  match read_try b model_name record_id fields [] with
  | (Except.ok env, tr) => (env, tr)
  | (Except.error (PyErr.valueError _), tr) =>
      (Envelope.failure
        ("Invalid record ID: " ++ record_id.toStr ++ ". Must be a valid integer."), tr)
  | (Except.error (PyErr.other m), tr) => (Envelope.failure m, tr)

/-- Body of the `search_count` tool's `try:` block. -/
def search_count_try (b : OdooClient) (model_name : String) (domain : List Value) : M Envelope :=
  M.bind (M.call (Call.search_count model_name domain) (b.search_count model_name domain))
    (fun results => M.pure (Envelope.success results))

/-- Tool `search_count`; `domain` defaults to `[]` at the call site. -/
def search_count (b : OdooClient) (model_name : String) (domain : List Value) :
    Envelope × Trace :=
  runTool (search_count_try b model_name domain)

/-- The `kwargs` dict built by the `search_read` tool: each optional parameter
is added only when it `is not None`. -/
def search_read_kwargs (fields : Option (List String)) (limit : Option Int)
    (offset : Option Int) (order : Option String) : List (String × Value) :=
  let kwargs : List (String × Value) := []
  let kwargs := match fields with
    | some f => kwargs ++ [("fields", Value.list (f.map Value.str))]
    | none => kwargs
  let kwargs := match limit with
    | some n => kwargs ++ [("limit", Value.int n)]
    | none => kwargs
  let kwargs := match offset with
    | some n => kwargs ++ [("offset", Value.int n)]
    | none => kwargs
  let kwargs := match order with
    | some o => kwargs ++ [("order", Value.str o)]
    | none => kwargs
  kwargs

/-- Body of the `search_read` tool's `try:` block: build `kwargs`, one
`execute_method(model_name, 'search_read', domain, **kwargs)` call. -/
def search_read_try (b : OdooClient) (model_name : String) (domain : List Value)
    (fields : Option (List String)) (limit : Option Int) (offset : Option Int)
    (order : Option String) : M Envelope :=
  M.bind (M.call
            (Call.execute_method model_name "search_read" domain
              (search_read_kwargs fields limit offset order))
            (b.execute_method model_name "search_read" domain
              (search_read_kwargs fields limit offset order)))
    (fun results => M.pure (Envelope.success results))

/-- Tool `search_read`; unset optional parameters are `none`. -/
def search_read (b : OdooClient) (model_name : String) (domain : List Value)
    (fields : Option (List String)) (limit : Option Int) (offset : Option Int)
    (order : Option String) : Envelope × Trace :=
  runTool (search_read_try b model_name domain fields limit offset order)

/-- The Python value of the `lazy: Optional[bool] = True` parameter as stored
into `kwargs['lazy']` (an explicit `None` is forwarded as JSON null). -/
def lazyValue : Option Bool → Value
  | some v => Value.bool v
  | none => Value.null

/-- The `kwargs` dict built by the `read_group` tool: `fields`, `groupby` and
`lazy` are always present. -/
def read_group_kwargs (fields groupby : List String) (lazy : Option Bool) :
    List (String × Value) :=
  [("fields", Value.list (fields.map Value.str)),
   ("groupby", Value.list (groupby.map Value.str)),
   ("lazy", lazyValue lazy)]

/-- Body of the `read_group` tool's `try:` block. -/
def read_group_try (b : OdooClient) (model_name : String) (domain : List Value)
    (fields groupby : List String) (lazy : Option Bool) : M Envelope :=
  M.bind (M.call
            (Call.execute_method model_name "read_group" domain
              (read_group_kwargs fields groupby lazy))
            (b.execute_method model_name "read_group" domain
              (read_group_kwargs fields groupby lazy)))
    (fun results => M.pure (Envelope.success results))

/-- Tool `read_group`: the `if not fields:` guard runs before the `try:`
block, so an empty `fields` returns a failure envelope with no remote call.
Defaults at the call site: `domain=[]`, `fields=[]`, `groupby=[]`, `lazy=True`. -/
def read_group (b : OdooClient) (model_name : String) (domain : List Value)
    (fields groupby : List String) (lazy : Option Bool) : Envelope × Trace :=
  if fields.isEmpty then
    (Envelope.failure "The 'fields' parameter must not be empty", [])
  else
    runTool (read_group_try b model_name domain fields groupby lazy)

/- ----- MCP Resources (server.py lines 115-192) ----- -/

/-- JSON string escaping for backslash and double quote as `json.dumps` does. -/
def jsonEscape (s : String) : String :=
  (s.replace "\\" "\\\\").replace "\"" "\\\""

mutual

/-- Rendering of a value by `json.dumps` (the `indent=2` pretty-printing is
abstracted to a compact rendering; no specified property inspects the
layout of the serialized text, only which value is serialized). -/
def Value.toJson : Value → String
  | Value.null => "null"
  | Value.bool v => cond v "true" "false"
  | Value.int n => toString n
  | Value.str s => "\"" ++ jsonEscape s ++ "\""
  | Value.list xs => "[" ++ jsonArr xs ++ "]"
  | Value.dict xs => "\x7b" ++ jsonObj xs ++ "\x7d"

/-- Comma-separated rendering of a JSON array's elements. -/
def jsonArr : List Value → String
  | [] => ""
  | [v] => Value.toJson v
  | v :: vs => Value.toJson v ++ ", " ++ jsonArr vs

/-- Comma-separated rendering of a JSON object's entries. -/
def jsonObj : List (String × Value) → String
  | [] => ""
  | [(k, v)] => "\"" ++ jsonEscape k ++ "\": " ++ Value.toJson v
  | (k, v) :: xs => "\"" ++ jsonEscape k ++ "\": " ++ Value.toJson v ++ ", " ++ jsonObj xs

end

/-- The `json.dumps({"error": str(e)}, indent=2)` payload produced by the
catch-all clause of the three guarded resource handlers. -/
def errorPayload (msg : String) : String :=
  (Value.dict [("error", Value.str msg)]).toJson

/-- The façade wrapper of the three resource handlers that do catch: run the
body from an empty trace; a raised exception becomes the error payload. -/
def runResource (body : M String) : String × Trace :=
  match body [] with
  | (Except.ok s, tr) => (s, tr)
  | (Except.error e, tr) => (errorPayload e.msg, tr)

/-- Resource `odoo://models` (`get_models`): NO try/except — a raised
collaborator exception propagates out of the handler, so its result type is
`Except PyErr String`, unlike the other three resources. -/
def get_models (b : OdooClient) : Except PyErr String × Trace :=
  M.bind (M.call Call.get_models b.get_models)
    (fun models => M.pure models.toJson) []

/-- Resource `odoo://model/{model_name}` (`get_model_info`): guarded by
try/except; merges field definitions under key `"fields"`. -/
def get_model_info (b : OdooClient) (model_name : String) : String × Trace :=
  runResource
    (M.bind (M.call (Call.get_model_info model_name) (b.get_model_info model_name)) (fun mi =>
     M.bind (M.call (Call.get_model_fields model_name) (b.get_model_fields model_name)) (fun fields =>
     M.pure (Value.dict (dictSet mi "fields" fields)).toJson)))

/-- Resource `odoo://record/{model_name}/{record_id}` (`get_record`): guarded
by try/except (a single generic clause — no dedicated `except ValueError`,
unlike the `read` tool); `record_id` arrives as a string from the URI. -/
def get_record (b : OdooClient) (model_name : String) (record_id : String) : String × Trace :=
  runResource
    (M.bind (M.lift (pyIntOfStr record_id)) (fun record_id_int =>
     M.bind (M.call (Call.read_records model_name [record_id_int] none)
                    (b.read_records model_name [record_id_int] none)) (fun record =>
     match record with
     | [] => M.pure (Value.dict
         [("error", Value.str ("Record not found: " ++ model_name ++ " ID " ++ record_id))]).toJson
     | r :: _ => M.pure r.toJson)))

/-- Resource `odoo://search/{model_name}/{domain}` (`search_records_resource`):
guarded by try/except; forwards the raw domain string to the client's
`search_read` method. -/
def search_records_resource (b : OdooClient) (model_name : String) (domain : String) :
    String × Trace :=
  runResource
    (M.bind (M.call (Call.search_read model_name domain) (b.search_read model_name domain))
      (fun results => M.pure results.toJson))

/- ----- Concrete collaborator behaviours used as witnesses ----- -/

/-- A collaborator on which every method succeeds with a fixed value. -/
def okClient : OdooClient :=
  ⟨Except.ok (Value.dict [("res.partner", Value.dict [("name", Value.str "Contact")])]),
   fun m => Except.ok [("model", Value.str m), ("name", Value.str "Contact")],
   fun _ => Except.ok (Value.dict [("name", Value.dict [("type", Value.str "char")])]),
   fun _ _ _ => Except.ok [Value.dict [("id", Value.int 1), ("name", Value.str "Azure")]],
   fun _ _ => Except.ok (Value.int 42),
   fun _ _ => Except.ok (Value.list []),
   fun _ _ _ _ => Except.ok (Value.list [])⟩

/-- A collaborator on which every method raises a generic (non-ValueError)
exception with message "boom". -/
def boomClient : OdooClient :=
  ⟨Except.error (PyErr.other "boom"),
   fun _ => Except.error (PyErr.other "boom"),
   fun _ => Except.error (PyErr.other "boom"),
   fun _ _ _ => Except.error (PyErr.other "boom"),
   fun _ _ => Except.error (PyErr.other "boom"),
   fun _ _ => Except.error (PyErr.other "boom"),
   fun _ _ _ _ => Except.error (PyErr.other "boom")⟩

/-- A collaborator whose `read_records` raises a `ValueError` with its own
message; other methods behave as `okClient`. -/
def vErrClient : OdooClient :=
  ⟨Except.ok (Value.dict []),
   fun m => Except.ok [("model", Value.str m)],
   fun _ => Except.ok (Value.dict []),
   fun _ _ _ => Except.error (PyErr.valueError "collaborator boom"),
   fun _ _ => Except.ok (Value.int 0),
   fun _ _ => Except.ok (Value.list []),
   fun _ _ _ _ => Except.ok (Value.list [])⟩

/-- A collaborator whose `read_records` returns an empty sequence. -/
def emptyReadClient : OdooClient :=
  ⟨Except.ok (Value.dict []),
   fun m => Except.ok [("model", Value.str m)],
   fun _ => Except.ok (Value.dict []),
   fun _ _ _ => Except.ok [],
   fun _ _ => Except.ok (Value.int 0),
   fun _ _ => Except.ok (Value.list []),
   fun _ _ _ _ => Except.ok (Value.list [])⟩

/- ----- Theorems ----- -/

/-- An envelope is well formed: exactly one of the two variants, carrying
exactly one payload. -/
def isWellFormed (e : Envelope) : Prop :=
  (∃ v, e = Envelope.success v) ∨ (∃ m, e = Envelope.failure m)

theorem envelope_wellFormed (e : Envelope) : isWellFormed e := by
  cases e with
  | success v => exact Or.inl ⟨v, rfl⟩
  | failure m => exact Or.inr ⟨m, rfl⟩

/-- C1: every registered tool operation, for every argument assignment and
every collaborator behaviour (normal return or raised fault), returns exactly
one well-formed result envelope — success or failure, never both — and the
handler's total return type (an `Envelope`, never an uncaught `PyErr`) means
no raised exception escapes the façade boundary. -/
theorem C1_every_invocation_yields_one_envelope
    (b : OdooClient) (m : String) (rid : StrOrInt) (f : Option (List String))
    (dom : List Value) (lim off : Option Int) (ord : Option String)
    (flds gby : List String) (lz : Option Bool) :
    isWellFormed (list_models b).1 ∧
    isWellFormed (model_info b m).1 ∧
    isWellFormed (read b m rid f).1 ∧
    isWellFormed (search_count b m dom).1 ∧
    isWellFormed (search_read b m dom f lim off ord).1 ∧
    isWellFormed (read_group b m dom flds gby lz).1 :=
  ⟨envelope_wellFormed _, envelope_wellFormed _, envelope_wellFormed _,
   envelope_wellFormed _, envelope_wellFormed _, envelope_wellFormed _⟩

/-- C6 counterexample: the fail-fast error string of `read_group` on empty
`fields` is "The 'fields' parameter must not be empty", which is not the
string "fields must not be empty" stated by the claim. -/
theorem C6_counterexample :
    (read_group okClient "sale.order" [] [] [] (some true)).1 =
      Envelope.failure "The 'fields' parameter must not be empty" ∧
    "The 'fields' parameter must not be empty" ≠ "fields must not be empty" :=
  ⟨rfl, by decide⟩

/-- C6 (amended): `read_group` with empty `fields` fails fast — for every
collaborator behaviour and every other argument it returns the failure
envelope with error "The 'fields' parameter must not be empty" and an empty
call trace (the collaborator is never invoked). -/
theorem C6_read_group_empty_fields_fails_fast
    (b : OdooClient) (m : String) (dom : List Value) (gby : List String)
    (lz : Option Bool) :
    read_group b m dom [] gby lz =
      (Envelope.failure "The 'fields' parameter must not be empty", []) := rfl

/-- C7: a `record_id` string that does not parse to an integer makes the
`read` (get_record) tool return the failure envelope whose error is
"Invalid record ID: {record_id}. Must be a valid integer." — a message
beginning with "Invalid record ID" — with an empty call trace, so the
collaborator's record-reading operation is never issued. -/
theorem C7_invalid_record_id_no_remote_call
    (b : OdooClient) (m : String) (v : String) (f : Option (List String))
    (h : pyIntParse v = none) :
    read b m (StrOrInt.s v) f =
      (Envelope.failure ("Invalid record ID: " ++ v ++ ". Must be a valid integer."), []) := by
  unfold read read_try
  simp [M.bind, M.lift, pyInt, pyIntOfStr, h, StrOrInt.toStr]

/-- C7 witness: `get_record("res.partner", "abc")`. -/
theorem C7_witness :
    read okClient "res.partner" (StrOrInt.s "abc") none =
      (Envelope.failure ("Invalid record ID: " ++ "abc" ++ ". Must be a valid integer."), []) :=
  C7_invalid_record_id_no_remote_call okClient "res.partner" "abc" none rfl

/-- C8: for a parsable `record_id`, when the collaborator's lookup returns the
empty sequence the `read` tool returns a failure whose error is
"Record {id} not found in model {model}." (containing "not found"), never an
empty success; when the lookup returns a non-empty sequence the result is a
success envelope carrying exactly the returned sequence (a one-element
sequence per the remote convention for a single-id read). -/
theorem C8_read_not_found_vs_success
    (b : OdooClient) (m : String) (rid : StrOrInt) (n : Int)
    (f : Option (List String)) (rs : List Value)
    (hn : pyInt rid = Except.ok n)
    (hr : b.read_records m [n] f = Except.ok rs) :
    (rs = [] →
      (read b m rid f).1 =
        Envelope.failure ("Record " ++ toString n ++ " not found in model " ++ m ++ ".")) ∧
    (rs ≠ [] → (read b m rid f).1 = Envelope.success (Value.list rs)) := by
  unfold read read_try
  cases rs with
  | nil =>
      refine ⟨fun _ => ?_, fun hne => absurd rfl hne⟩
      simp [M.bind, M.lift, M.call, M.pure, hn, hr]
  | cons r rs' =>
      refine ⟨fun hc => by simp at hc, fun _ => ?_⟩
      simp [M.bind, M.lift, M.call, M.pure, hn, hr]

/-- C8 witness: an empty lookup for id 9999999 gives the not-found failure;
a non-empty lookup for id 5 gives success carrying the one-element sequence. -/
theorem C8_witness :
    (read emptyReadClient "res.partner" (StrOrInt.s "9999999") none).1 =
      Envelope.failure
        ("Record " ++ toString (9999999 : Int) ++ " not found in model " ++ "res.partner" ++ ".") ∧
    (read okClient "res.partner" (StrOrInt.i 5) none).1 =
      Envelope.success
        (Value.list [Value.dict [("id", Value.int 1), ("name", Value.str "Azure")]]) :=
  ⟨(C8_read_not_found_vs_success emptyReadClient "res.partner" (StrOrInt.s "9999999")
      9999999 none [] rfl rfl).1 rfl,
   (C8_read_not_found_vs_success okClient "res.partner" (StrOrInt.i 5) 5 none
      [Value.dict [("id", Value.int 1), ("name", Value.str "Azure")]] rfl rfl).2
      (by simp)⟩

/-- C9: against a collaborator that succeeds, `search_count` and `search_read`
return a success envelope whose result is exactly the collaborator's raw
return value (identity pass-through), and `model_info` returns a success
envelope whose result is the model metadata mapping with the field
definitions inserted under the key "fields" (wrapped-and-merged). -/
theorem C9_success_passthrough
    (b : OdooClient) (m : String) (dom : List Value) (f : Option (List String))
    (lim off : Option Int) (ord : Option String) (cnt v fv : Value)
    (mi : List (String × Value)) :
    (b.search_count m dom = Except.ok cnt →
      (search_count b m dom).1 = Envelope.success cnt) ∧
    (b.execute_method m "search_read" dom (search_read_kwargs f lim off ord) = Except.ok v →
      (search_read b m dom f lim off ord).1 = Envelope.success v) ∧
    (b.get_model_info m = Except.ok mi → b.get_model_fields m = Except.ok fv →
      (model_info b m).1 = Envelope.success (Value.dict (dictSet mi "fields" fv))) := by
  refine ⟨fun h => ?_, fun h => ?_, fun h1 h2 => ?_⟩
  · unfold search_count search_count_try
    simp [runTool, M.bind, M.call, M.pure, h]
  · unfold search_read search_read_try
    simp [runTool, M.bind, M.call, M.pure, h]
  · unfold model_info model_info_try
    simp [runTool, M.bind, M.call, M.pure, h1, h2]

/-- C9 witness: `okClient` with concrete arguments. -/
theorem C9_witness :
    (search_count okClient "res.partner" []).1 = Envelope.success (Value.int 42) ∧
    (search_read okClient "res.partner" [] none none none none).1 =
      Envelope.success (Value.list []) ∧
    (model_info okClient "res.partner").1 =
      Envelope.success (Value.dict
        [("model", Value.str "res.partner"), ("name", Value.str "Contact"),
         ("fields", Value.dict [("name", Value.dict [("type", Value.str "char")])])]) := by
  have h := C9_success_passthrough okClient "res.partner" [] none none none none
    (Value.int 42) (Value.list [])
    (Value.dict [("name", Value.dict [("type", Value.str "char")])])
    [("model", Value.str "res.partner"), ("name", Value.str "Contact")]
  exact ⟨h.1 rfl, h.2.1 rfl, h.2.2 rfl rfl⟩

/-- C10: the `odoo://models` resource handler (`get_models`) performs its
collaborator call with no fault capture — a raised collaborator exception
propagates out of the handler (result `Except.error e`) — whereas the other
three resource handlers catch every exception and convert it into the
`{"error": str(e)}` payload. -/
theorem C10_get_models_resource_propagates_faults
    (b : OdooClient) (m rid dom : String) (e : PyErr) (v : Value) :
    (b.get_models = Except.error e →
      get_models b = (Except.error e, [Call.get_models])) ∧
    (b.get_models = Except.ok v →
      get_models b = (Except.ok v.toJson, [Call.get_models])) ∧
    (b.get_model_info m = Except.error e →
      (get_model_info b m).1 = errorPayload e.msg) ∧
    (∀ n, pyIntOfStr rid = Except.ok n → b.read_records m [n] none = Except.error e →
      (get_record b m rid).1 = errorPayload e.msg) ∧
    (b.search_read m dom = Except.error e →
      (search_records_resource b m dom).1 = errorPayload e.msg) := by
  refine ⟨fun h => ?_, fun h => ?_, fun h => ?_, fun n h1 h2 => ?_, fun h => ?_⟩
  · unfold get_models
    simp [M.bind, M.call, M.pure, h]
  · unfold get_models
    simp [M.bind, M.call, M.pure, h]
  · unfold get_model_info
    simp [runResource, M.bind, M.call, M.pure, h]
  · unfold get_record
    simp [runResource, M.bind, M.lift, M.call, M.pure, h1, h2]
  · unfold search_records_resource
    simp [runResource, M.bind, M.call, M.pure, h]

/-- C10 witness: `boomClient` raises everywhere; the models resource
propagates the exception while the other three convert it to a payload. -/
theorem C10_witness :
    get_models boomClient = (Except.error (PyErr.other "boom"), [Call.get_models]) ∧
    (get_model_info boomClient "res.partner").1 = errorPayload "boom" ∧
    (get_record boomClient "res.partner" "5").1 = errorPayload "boom" ∧
    (search_records_resource boomClient "res.partner" "[]").1 = errorPayload "boom" := by
  have h := C10_get_models_resource_propagates_faults boomClient "res.partner" "5" "[]"
    (PyErr.other "boom") (Value.dict [])
  exact ⟨h.1 rfl, h.2.2.1 rfl, h.2.2.2.1 5 rfl rfl, h.2.2.2.2 rfl⟩

/-- C2 counterexample: a single `model_info` invocation with valid arguments
against a succeeding collaborator issues two outbound collaborator calls
(`get_model_info` then `get_model_fields`), not exactly one. -/
theorem C2_counterexample :
    (model_info okClient "res.partner").2 =
      [Call.get_model_info "res.partner", Call.get_model_fields "res.partner"] ∧
    (model_info okClient "res.partner").2.length = 2 :=
  ⟨rfl, rfl⟩

/-- C2 (amended): per invocation with valid arguments, `list_models`,
`read`, `search_count`, `search_read` and `read_group` each issue exactly one
outbound collaborator call, while `model_info` issues exactly two
(`get_model_info` then `get_model_fields`). -/
theorem C2_amended_call_counts
    (b : OdooClient) (m : String) (dom : List Value) (rid : StrOrInt) (n : Int)
    (f : Option (List String)) (mi : List (String × Value)) (lim off : Option Int)
    (ord : Option String) (flds gby : List String) (lz : Option Bool)
    (hmi : b.get_model_info m = Except.ok mi)
    (hn : pyInt rid = Except.ok n)
    (hf : flds ≠ []) :
    (list_models b).2 = [Call.get_models] ∧
    (model_info b m).2 = [Call.get_model_info m, Call.get_model_fields m] ∧
    (read b m rid f).2 = [Call.read_records m [n] f] ∧
    (search_count b m dom).2 = [Call.search_count m dom] ∧
    (search_read b m dom f lim off ord).2 =
      [Call.execute_method m "search_read" dom (search_read_kwargs f lim off ord)] ∧
    (read_group b m dom flds gby lz).2 =
      [Call.execute_method m "read_group" dom (read_group_kwargs flds gby lz)] := by
  refine ⟨?_, ?_, ?_, ?_, ?_, ?_⟩
  · unfold list_models list_models_try
    cases hb : b.get_models <;> simp [runTool, M.bind, M.call, M.pure, hb]
  · unfold model_info model_info_try
    cases hb : b.get_model_fields m <;>
      simp [runTool, M.bind, M.call, M.pure, hmi, hb]
  · unfold read read_try
    cases hb : b.read_records m [n] f with
    | error e =>
        cases e <;> simp [M.bind, M.lift, M.call, M.pure, hn, hb]
    | ok rs =>
        cases rs <;> simp [M.bind, M.lift, M.call, M.pure, hn, hb]
  · unfold search_count search_count_try
    cases hb : b.search_count m dom <;> simp [runTool, M.bind, M.call, M.pure, hb]
  · unfold search_read search_read_try
    cases hb : b.execute_method m "search_read" dom (search_read_kwargs f lim off ord) <;>
      simp [runTool, M.bind, M.call, M.pure, hb]
  · unfold read_group read_group_try
    cases flds with
    | nil => exact absurd rfl hf
    | cons c cs =>
        cases hb : b.execute_method m "read_group" dom (read_group_kwargs (c :: cs) gby lz) <;>
          simp [runTool, M.bind, M.call, M.pure, hb]

/-- C2 witness: concrete invocations of all six tools. -/
theorem C2_amended_witness :
    (list_models okClient).2 = [Call.get_models] ∧
    (model_info okClient "res.partner").2 =
      [Call.get_model_info "res.partner", Call.get_model_fields "res.partner"] ∧
    (read okClient "res.partner" (StrOrInt.i 5) none).2 =
      [Call.read_records "res.partner" [5] none] ∧
    (search_count okClient "res.partner" []).2 = [Call.search_count "res.partner" []] ∧
    (search_read okClient "res.partner" [] none none none none).2 =
      [Call.execute_method "res.partner" "search_read" []
        (search_read_kwargs none none none none)] ∧
    (read_group okClient "res.partner" [] ["amount_total:sum"] [] (some true)).2 =
      [Call.execute_method "res.partner" "read_group" []
        (read_group_kwargs ["amount_total:sum"] [] (some true))] :=
  C2_amended_call_counts okClient "res.partner" [] (StrOrInt.i 5) 5 none
    [("model", Value.str "res.partner"), ("name", Value.str "Contact")]
    none none none ["amount_total:sum"] [] (some true) rfl rfl (by simp)

/-- C3 counterexample: invoking `read_group` with `groupby` and `lazy` left at
their unsupplied defaults (`[]` and `True`) forwards an options dict that
DOES contain the keys "groupby" (as an empty list) and "lazy" (as `true`),
contradicting the claim that unset optional parameters are absent from the
forwarded options. -/
theorem C3_counterexample :
    ∃ kw, (read_group okClient "sale.order" [] ["amount_total:sum"] [] (some true)).2 =
        [Call.execute_method "sale.order" "read_group" [] kw] ∧
      ("groupby", Value.list []) ∈ kw ∧ ("lazy", Value.bool true) ∈ kw :=
  ⟨read_group_kwargs ["amount_total:sum"] [] (some true), rfl, by simp [read_group_kwargs, lazyValue],
   by simp [read_group_kwargs, lazyValue]⟩

/-- C3 (amended): the absent-when-unset discipline holds for `search_read`
(with every optional parameter unset the forwarded options dict is empty),
but `read_group` always forwards the keys "fields", "groupby" and "lazy" —
with their Python defaults (`[]`, `[]`, `True`) when the caller leaves them
unset — so its unset optional parameters are NOT absent from the forwarded
options. -/
theorem C3_amended_forwarding
    (b : OdooClient) (m : String) (dom : List Value) (flds gby : List String)
    (lz : Option Bool) (hf : flds ≠ []) :
    (search_read b m dom none none none none).2 =
      [Call.execute_method m "search_read" dom []] ∧
    (read_group b m dom flds gby lz).2 =
      [Call.execute_method m "read_group" dom (read_group_kwargs flds gby lz)] ∧
    ("fields", Value.list (flds.map Value.str)) ∈ read_group_kwargs flds gby lz ∧
    ("groupby", Value.list (gby.map Value.str)) ∈ read_group_kwargs flds gby lz ∧
    ("lazy", lazyValue lz) ∈ read_group_kwargs flds gby lz := by
  refine ⟨?_, ?_, by simp [read_group_kwargs, lazyValue], by simp [read_group_kwargs, lazyValue],
    by simp [read_group_kwargs, lazyValue]⟩
  · unfold search_read search_read_try
    cases hb : b.execute_method m "search_read" dom (search_read_kwargs none none none none) <;>
      simp [runTool, M.bind, M.call, M.pure, search_read_kwargs, hb]
  · unfold read_group read_group_try
    cases flds with
    | nil => exact absurd rfl hf
    | cons c cs =>
        cases hb : b.execute_method m "read_group" dom (read_group_kwargs (c :: cs) gby lz) <;>
          simp [runTool, M.bind, M.call, M.pure, hb]

/-- C3 witness: concrete default-argument invocations. -/
theorem C3_amended_witness :
    (search_read okClient "sale.order" [] none none none none).2 =
      [Call.execute_method "sale.order" "search_read" [] []] ∧
    (read_group okClient "sale.order" [] ["amount_total:sum"] [] (some true)).2 =
      [Call.execute_method "sale.order" "read_group" []
        (read_group_kwargs ["amount_total:sum"] [] (some true))] ∧
    ("fields", Value.list [Value.str "amount_total:sum"]) ∈
      read_group_kwargs ["amount_total:sum"] [] (some true) ∧
    ("groupby", Value.list []) ∈ read_group_kwargs ["amount_total:sum"] [] (some true) ∧
    ("lazy", lazyValue (some true)) ∈ read_group_kwargs ["amount_total:sum"] [] (some true) :=
  C3_amended_forwarding okClient "sale.order" [] ["amount_total:sum"] [] (some true) (by simp)

/-- C4: every `search_read` invocation forwards exactly one collaborator call
whose options dict is `search_read_kwargs`; each of `fields`, `limit`,
`offset`, `order` left unset is entirely absent from that dict (the key does
not occur at all), and each one supplied is present with the caller's value. -/
theorem C4_search_read_optional_forwarding
    (b : OdooClient) (m : String) (dom : List Value) (f : Option (List String))
    (lim off : Option Int) (ord : Option String) :
    (search_read b m dom f lim off ord).2 =
      [Call.execute_method m "search_read" dom (search_read_kwargs f lim off ord)] ∧
    (f = none → ∀ v, ("fields", v) ∉ search_read_kwargs f lim off ord) ∧
    (lim = none → ∀ v, ("limit", v) ∉ search_read_kwargs f lim off ord) ∧
    (off = none → ∀ v, ("offset", v) ∉ search_read_kwargs f lim off ord) ∧
    (ord = none → ∀ v, ("order", v) ∉ search_read_kwargs f lim off ord) ∧
    (∀ x, f = some x →
      ("fields", Value.list (x.map Value.str)) ∈ search_read_kwargs f lim off ord) ∧
    (∀ x, lim = some x → ("limit", Value.int x) ∈ search_read_kwargs f lim off ord) ∧
    (∀ x, off = some x → ("offset", Value.int x) ∈ search_read_kwargs f lim off ord) ∧
    (∀ x, ord = some x → ("order", Value.str x) ∈ search_read_kwargs f lim off ord) := by
  refine ⟨?_, ?_⟩
  · unfold search_read search_read_try
    cases hb : b.execute_method m "search_read" dom (search_read_kwargs f lim off ord) <;>
      simp [runTool, M.bind, M.call, M.pure, hb]
  · cases f <;> cases lim <;> cases off <;> cases ord <;>
      simp [search_read_kwargs]

/-- C4 witness: `fields` and `limit` unset, `offset` and `order` supplied. -/
theorem C4_witness :
    (search_read okClient "res.partner" [] none none (some 10) (some "name ASC")).2 =
      [Call.execute_method "res.partner" "search_read" []
        (search_read_kwargs none none (some 10) (some "name ASC"))] ∧
    (∀ v, ("fields", v) ∉ search_read_kwargs none none (some 10) (some "name ASC")) ∧
    (∀ v, ("limit", v) ∉ search_read_kwargs none none (some 10) (some "name ASC")) ∧
    ("offset", Value.int 10) ∈ search_read_kwargs none none (some 10) (some "name ASC") ∧
    ("order", Value.str "name ASC") ∈ search_read_kwargs none none (some 10) (some "name ASC") := by
  have h := C4_search_read_optional_forwarding okClient "res.partner" [] none none
    (some 10) (some "name ASC")
  exact ⟨h.1, h.2.1 rfl, h.2.2.1 rfl, h.2.2.2.2.2.2.2.1 10 rfl,
    h.2.2.2.2.2.2.2.2 "name ASC" rfl⟩

/-- C5 counterexample: when the collaborator's `read_records` raises a
`ValueError` with its own message "collaborator boom", the `read` tool's
dedicated `except ValueError:` clause catches it first and substitutes the
local invalid-record-ID message — the collaborator call was issued (the trace
shows it), yet its fault message is not the one surfaced. -/
theorem C5_counterexample :
    (read vErrClient "res.partner" (StrOrInt.i 5) none).1 =
      Envelope.failure "Invalid record ID: 5. Must be a valid integer." ∧
    "Invalid record ID: 5. Must be a valid integer." ≠ "collaborator boom" ∧
    (read vErrClient "res.partner" (StrOrInt.i 5) none).2 =
      [Call.read_records "res.partner" [5] none] :=
  ⟨rfl, by decide, rfl⟩

/-- C5 (amended): for every operation, a fault raised by the collaborator
during the outbound call is surfaced as a failure envelope carrying the
collaborator's message unmodified — except in the `read` tool, where a
`ValueError` raised by the collaborator is caught by the dedicated
`except ValueError:` clause and reported as the local
"Invalid record ID: ..." message instead; every other exception type in
`read` passes through unmodified. -/
theorem C5_amended_fault_messages
    (b : OdooClient) (m : String) (dom : List Value) (rid : StrOrInt) (n : Int)
    (f : Option (List String)) (mi : List (String × Value)) (flds gby : List String)
    (lz : Option Bool) (lim off : Option Int) (ord : Option String)
    (e : PyErr) (msg : String) :
    (b.get_models = Except.error e → (list_models b).1 = Envelope.failure e.msg) ∧
    (b.get_model_info m = Except.error e → (model_info b m).1 = Envelope.failure e.msg) ∧
    (b.get_model_info m = Except.ok mi → b.get_model_fields m = Except.error e →
      (model_info b m).1 = Envelope.failure e.msg) ∧
    (b.search_count m dom = Except.error e →
      (search_count b m dom).1 = Envelope.failure e.msg) ∧
    (b.execute_method m "search_read" dom (search_read_kwargs f lim off ord) =
        Except.error e →
      (search_read b m dom f lim off ord).1 = Envelope.failure e.msg) ∧
    (flds ≠ [] →
      b.execute_method m "read_group" dom (read_group_kwargs flds gby lz) =
        Except.error e →
      (read_group b m dom flds gby lz).1 = Envelope.failure e.msg) ∧
    (pyInt rid = Except.ok n → b.read_records m [n] f = Except.error (PyErr.other msg) →
      (read b m rid f).1 = Envelope.failure msg) ∧
    (pyInt rid = Except.ok n →
      b.read_records m [n] f = Except.error (PyErr.valueError msg) →
      (read b m rid f).1 =
        Envelope.failure
          ("Invalid record ID: " ++ rid.toStr ++ ". Must be a valid integer.")) := by
  refine ⟨fun h => ?_, fun h => ?_, fun h1 h2 => ?_, fun h => ?_, fun h => ?_,
    fun hf h => ?_, fun h1 h2 => ?_, fun h1 h2 => ?_⟩
  · unfold list_models list_models_try
    simp [runTool, M.bind, M.call, M.pure, h]
  · unfold model_info model_info_try
    simp [runTool, M.bind, M.call, M.pure, h]
  · unfold model_info model_info_try
    simp [runTool, M.bind, M.call, M.pure, h1, h2]
  · unfold search_count search_count_try
    simp [runTool, M.bind, M.call, M.pure, h]
  · unfold search_read search_read_try
    simp [runTool, M.bind, M.call, M.pure, h]
  · unfold read_group read_group_try
    cases flds with
    | nil => exact absurd rfl hf
    | cons c cs => simp [runTool, M.bind, M.call, M.pure, h]
  · unfold read read_try
    simp [M.bind, M.lift, M.call, M.pure, h1, h2, PyErr.msg]
  · unfold read read_try
    simp [M.bind, M.lift, M.call, M.pure, h1, h2]

/-- C5 witness: a generic fault ("boom") passes through every tool unmodified;
a collaborator `ValueError` in `read` is replaced by the local message. -/
theorem C5_amended_witness :
    (list_models boomClient).1 = Envelope.failure "boom" ∧
    (model_info boomClient "res.partner").1 = Envelope.failure "boom" ∧
    (search_count boomClient "res.partner" []).1 = Envelope.failure "boom" ∧
    (search_read boomClient "res.partner" [] none none none none).1 =
      Envelope.failure "boom" ∧
    (read_group boomClient "sale.order" [] ["amount_total:sum"] [] (some true)).1 =
      Envelope.failure "boom" ∧
    (read boomClient "res.partner" (StrOrInt.i 5) none).1 = Envelope.failure "boom" ∧
    (read vErrClient "res.partner" (StrOrInt.i 5) none).1 =
      Envelope.failure
        ("Invalid record ID: " ++ (StrOrInt.i 5).toStr ++ ". Must be a valid integer.") := by
  have h := C5_amended_fault_messages boomClient "res.partner" [] (StrOrInt.i 5) 5 none
    [] ["amount_total:sum"] [] (some true) none none none (PyErr.other "boom") "boom"
  have h2 := C5_amended_fault_messages vErrClient "res.partner" [] (StrOrInt.i 5) 5 none
    [] ["amount_total:sum"] [] (some true) none none none (PyErr.other "boom")
    "collaborator boom"
  refine ⟨h.1 rfl, h.2.1 rfl, h.2.2.2.1 rfl, h.2.2.2.2.1 rfl, ?_, ?_, ?_⟩
  · exact (C5_amended_fault_messages boomClient "sale.order" [] (StrOrInt.i 5) 5 none
      [] ["amount_total:sum"] [] (some true) none none none (PyErr.other "boom")
      "boom").2.2.2.2.2.1 (by simp) rfl
  · exact h.2.2.2.2.2.2.1 rfl rfl
  · exact h2.2.2.2.2.2.2.2 rfl rfl

end OdooMCP
